import Mathlib

/-!
Shallow embedding of the `message_bridge` Solana program
(packages/solana/message_bridge/programs/message_bridge/src/{lib,message,state,context,error}.rs).

Bytes are modelled as `Nat` (values < 256 where produced by the encoders),
byte buffers as `List Nat`, pubkeys/account ids as `Nat`.  Account maps
(`ForeignEmitter` PDAs keyed by chain id, `ReceivedMessage` PDAs keyed by
(emitter_chain, sequence)) are association lists so that states compare
decidably.  Anchor's account validation (the `has_one` owner constraint and
the `init` constraints that fail when the account already exists) runs before
the instruction body and is modelled in declaration order of the `Accounts`
structs in context.rs.  A failed instruction aborts the whole transaction, so
every error path returns the starting state unchanged.
-/

namespace MessageBridge

/-- `u16::from_be_bytes` / `u128::from_be_bytes` generalised: big-endian byte
list to natural number. -/
def beBytesToNat (l : List Nat) : Nat :=
  l.foldl (fun acc b => 256 * acc + b) 0

/-- `u64::from_le_bytes` / `u32::from_le_bytes` generalised: little-endian
byte list to natural number. -/
def leBytesToNat (l : List Nat) : Nat :=
  l.foldr (fun b acc => b + 256 * acc) 0

/-- `to_be_bytes` for a `k`-byte unsigned integer: big-endian byte list of
length `k`. -/
def natToBEBytes : Nat → Nat → List Nat
  | 0, _ => []
  | k + 1, n => natToBEBytes k (n / 256) ++ [n % 256]

/-- Wormhole chain ID for Solana (lib.rs). -/
def SOLANA_CHAIN_ID : Nat := 1

/-- `MessageBridgeError` from error.rs. -/
inductive MessageBridgeError
  | OwnerOnly
  | InvalidWormholeConfig
  | InvalidForeignEmitter
  | InvalidDestinationChainId
  | CannotRegisterSolanaEmitter
  | ZeroEmitterAddress
  | InvalidPayload
  | AlreadyProcessed
  | InsufficientFee
deriving DecidableEq, Repr

/-- Errors an instruction can surface: a program error, or a host-level
(Anchor/runtime) error raised during account validation or a CPI. -/
inductive BridgeErr
  /-- A `MessageBridgeError` raised by a `require!` or propagated decode error. -/
  | program : MessageBridgeError → BridgeErr
  /-- Anchor `init` constraint failure: the account to create already exists
  (the duplicate-claim / duplicate-registration failure). -/
  | accountExists
  /-- A required non-`init` `Account` is absent (e.g. unregistered emitter PDA). -/
  | accountMissing
  /-- The `wormhole::post_message` CPI returned an error, propagated by `?`. -/
  | emissionFailed
deriving DecidableEq, Repr

/-- `ValueMessage` (message.rs): compact payload. -/
structure ValueMessage where
  destination_chain_id : Nat
  value : Nat
deriving DecidableEq, Repr

/-- `ValueMessage::PAYLOAD_SIZE = 18`. -/
def ValueMessage.PAYLOAD_SIZE : Nat := 18

/-- `ValueMessage::encode`: destination chain id (2 bytes BE) ‖ value
(16 bytes BE). -/
def ValueMessage.encode (m : ValueMessage) : List Nat :=
  natToBEBytes 2 m.destination_chain_id ++ natToBEBytes 16 m.value

/-- `ValueMessage::decode`: fails with `InvalidPayload` when the input is
shorter than 18 bytes, else reads a BE u16 at 0 and a BE u128 at 2. -/
def ValueMessage.decode (data : List Nat) : Except MessageBridgeError ValueMessage :=
  if data.length < ValueMessage.PAYLOAD_SIZE then
    .error .InvalidPayload
  else
    .ok { destination_chain_id := beBytesToNat (data.take 2)
          value := beBytesToNat ((data.drop 2).take 16) }

/-- `InboundMessage` (message.rs): extended payload with a 32-byte tx id. -/
structure InboundMessage where
  tx_id : List Nat
  destination_chain_id : Nat
  value : Nat
deriving DecidableEq, Repr

/-- `InboundMessage::PAYLOAD_SIZE = 50`. -/
def InboundMessage.PAYLOAD_SIZE : Nat := 50

/-- `InboundMessage::decode`: fails with `InvalidPayload` when the input is
shorter than 50 bytes, else reads 32 bytes of tx id at 0, a BE u16 at 32 and
a BE u128 at 34. -/
def InboundMessage.decode (data : List Nat) : Except MessageBridgeError InboundMessage :=
  if data.length < InboundMessage.PAYLOAD_SIZE then
    .error .InvalidPayload
  else
    .ok { tx_id := data.take 32
          destination_chain_id := beBytesToNat ((data.drop 32).take 2)
          value := beBytesToNat ((data.drop 34).take 16) }

/-- `ForeignEmitter` account (state.rs). -/
structure ForeignEmitter where
  chain_id : Nat
  address : List Nat
  is_default_payload : Bool
deriving DecidableEq, Repr

/-- `ForeignEmitter::verify`: exact equality of the 32-byte addresses. -/
def ForeignEmitter.verify (fe : ForeignEmitter) (emitter_address : List Nat) : Bool :=
  fe.address = emitter_address

/-- `ReceivedMessage` account (state.rs). -/
structure ReceivedMessage where
  sequence : Nat
  emitter_chain : Nat
  value : Nat
  batch_id : Nat
deriving DecidableEq, Repr

/-- `Config` account (state.rs); pubkeys are abstract `Nat` ids. -/
structure Config where
  owner : Nat
  wormhole_program : Nat
  wormhole_bridge : Nat
  wormhole_fee_collector : Nat
  wormhole_emitter : Nat
  wormhole_sequence : Nat
  chain_id : Nat
  nonce : Nat
deriving DecidableEq, Repr

/-- The program's persistent state: the `Config` and `CurrentValue`
singletons, plus the `ForeignEmitter` PDAs keyed by chain id and the
`ReceivedMessage` PDAs keyed by (emitter_chain, sequence). -/
structure BridgeState where
  config : Config
  current_value : Nat
  emitters : List (Nat × ForeignEmitter)
  received : List ((Nat × Nat) × ReceivedMessage)
deriving DecidableEq, Repr

/-- `register_emitter` (lib.rs) together with its `RegisterEmitter` account
validation (context.rs): the `has_one = owner` constraint on `config`, then
the `init` of the `foreign_emitter` PDA (fails if it already exists), then
the instruction body.  Returns the error, if any, and the resulting state
(unchanged on every error path: a failed transaction is rolled back). -/
def register_emitter (st : BridgeState) (signer : Nat) (chain_id : Nat)
    (emitter_address : List Nat) (is_default_payload : Bool) :
    Option BridgeErr × BridgeState :=
  if signer ≠ st.config.owner then
    (some (.program .OwnerOnly), st)
  else if (st.emitters.lookup chain_id).isSome then
    (some .accountExists, st)
  else if chain_id = SOLANA_CHAIN_ID then
    (some (.program .CannotRegisterSolanaEmitter), st)
  else if emitter_address = List.replicate 32 0 then
    (some (.program .ZeroEmitterAddress), st)
  else
    (none,
     { st with
       emitters := (chain_id,
         { chain_id := chain_id
           address := emitter_address
           is_default_payload := is_default_payload }) :: st.emitters })

/-- Observable result of `send_value`: the possible error, the final
`Config`, whether a fee transfer to the collector was performed (and its
amount), and the message handed to `wormhole::post_message` (nonce and
payload) when the emission CPI was reached and succeeded. -/
structure SendResult where
  result : Option BridgeErr
  config : Config
  fee_transfer : Option Nat
  emitted : Option (Nat × List Nat)
deriving DecidableEq, Repr

/-- `send_value` (lib.rs).  `bridge_data` is the raw content of the wormhole
bridge data account, `payer_lamports` the payer's balance, `emission_ok`
whether the external `wormhole::post_message` CPI succeeds.  The fee is the
LE u64 at offset 16 of `bridge_data` when at least 24 bytes are present,
otherwise 0; a transfer happens only for a strictly positive fee.  The nonce
is a u32 and is incremented only after a successful emission. -/
def send_value (cfg : Config) (destination_chain_id : Nat) (value : Nat)
    (bridge_data : List Nat) (payer_lamports : Nat) (emission_ok : Bool) :
    SendResult :=
  if destination_chain_id = SOLANA_CHAIN_ID then
    { result := some (.program .InvalidDestinationChainId), config := cfg
      fee_transfer := none, emitted := none }
  else
    let fee := if bridge_data.length ≥ 24 then
        leBytesToNat ((bridge_data.drop 16).take 8)
      else 0
    if 0 < fee ∧ payer_lamports < fee then
      { result := some (.program .InsufficientFee), config := cfg
        fee_transfer := none, emitted := none }
    else
      let transferred := if 0 < fee then some fee else none
      let payload := ValueMessage.encode
        { destination_chain_id := destination_chain_id, value := value }
      if emission_ok then
        { result := none
          config := { cfg with nonce := (cfg.nonce + 1) % 2 ^ 32 }
          fee_transfer := transferred
          emitted := some (cfg.nonce, payload) }
      else
        { result := some .emissionFailed, config := cfg
          fee_transfer := transferred, emitted := none }

/-- PostedVAA parsing (lib.rs): emitter chain, LE u16 at offset 57. -/
def parsedEmitterChain (vaa_data : List Nat) : Nat :=
  leBytesToNat ((vaa_data.drop 57).take 2)

/-- PostedVAA parsing (lib.rs): emitter address, 32 bytes at offset 59. -/
def parsedEmitterAddress (vaa_data : List Nat) : List Nat :=
  (vaa_data.drop 59).take 32

/-- PostedVAA parsing (lib.rs): sequence, LE u64 at offset 49. -/
def parsedSequence (vaa_data : List Nat) : Nat :=
  leBytesToNat ((vaa_data.drop 49).take 8)

/-- PostedVAA parsing (lib.rs): payload length, LE u32 at offset 91. -/
def parsedPayloadLen (vaa_data : List Nat) : Nat :=
  leBytesToNat ((vaa_data.drop 91).take 4)

/-- PostedVAA parsing (lib.rs): payload bytes at offset 95. -/
def parsedPayload (vaa_data : List Nat) : List Nat :=
  (vaa_data.drop 95).take (parsedPayloadLen vaa_data)

/-- The payload decode-and-validate block of `receive_value` (lib.rs):
dispatch on the registered emitter's `is_default_payload` tag — never on the
payload's length — require the format's minimum length, decode, and check
the decoded destination chain against the local chain id. -/
def decodeByFormat (foreign_emitter : ForeignEmitter) (local_chain_id : Nat)
    (payload : List Nat) : Except MessageBridgeError Nat :=
  if foreign_emitter.is_default_payload then
    if payload.length < ValueMessage.PAYLOAD_SIZE then
      .error .InvalidPayload
    else
      match ValueMessage.decode payload with
      | .error e => .error e
      | .ok m =>
        if m.destination_chain_id ≠ local_chain_id then
          .error .InvalidDestinationChainId
        else
          .ok m.value
  else
    if payload.length < InboundMessage.PAYLOAD_SIZE then
      .error .InvalidPayload
    else
      match InboundMessage.decode payload with
      | .error e => .error e
      | .ok inbound =>
        if inbound.destination_chain_id ≠ local_chain_id then
          .error .InvalidDestinationChainId
        else
          .ok inbound.value

/-- `receive_value` (lib.rs) together with its `ReceiveValue` account
validation (context.rs), in declaration order: the `foreign_emitter` PDA
derived from the caller-asserted `emitter_chain` must exist, then the `init`
of the `received_message` PDA derived from the caller-asserted
(emitter_chain, sequence) fails if that record already exists; then the
instruction body parses the posted VAA (length ≥ 95, LE fields at offsets
49/57/59/91), cross-checks the asserted chain and sequence, verifies the
emitter address, bounds-checks and slices the payload, dispatches the decode
on the registered emitter's `is_default_payload` tag, checks the destination
chain, and finally writes `CurrentValue` and the `ReceivedMessage` record.
`vaa_hash` is the instruction's `_vaa_hash` argument.  Each
`require!(cond, err)` of the source is translated as
`if cond then <rest> else (some err, st)`.  Every error path returns the
starting state unchanged (transaction rollback). -/
def receive_value (st : BridgeState) (_vaa_hash : List Nat)
    (emitter_chain : Nat) (sequence : Nat) (vaa_data : List Nat) :
    Option BridgeErr × BridgeState :=
  match st.emitters.lookup emitter_chain with
  | none => (some .accountMissing, st)
  | some foreign_emitter =>
    if (st.received.lookup (emitter_chain, sequence)).isSome then
      (some .accountExists, st)
    else if 95 ≤ vaa_data.length then
      if parsedEmitterChain vaa_data = emitter_chain then
        if parsedSequence vaa_data = sequence then
          if foreign_emitter.verify (parsedEmitterAddress vaa_data) then
            if 95 + parsedPayloadLen vaa_data ≤ vaa_data.length then
              match decodeByFormat foreign_emitter st.config.chain_id
                  (parsedPayload vaa_data) with
              | .error e => (some (.program e), st)
              | .ok value =>
                (none,
                 { st with
                   current_value := value
                   received := ((emitter_chain, sequence),
                     { sequence := sequence
                       emitter_chain := emitter_chain
                       value := value
                       batch_id := 0 }) :: st.received })
            else (some (.program .InvalidPayload), st)
          else (some (.program .InvalidForeignEmitter), st)
        else (some (.program .InvalidPayload), st)
      else (some (.program .InvalidPayload), st)
    else (some (.program .InvalidPayload), st)

/-! ### Byte-level helper lemmas -/

theorem natToBEBytes_length (k n : Nat) : (natToBEBytes k n).length = k := by
  induction k generalizing n with
  | zero => rfl
  | succ k ih => simp [natToBEBytes, ih]

theorem beBytesToNat_append_one (xs : List Nat) (b : Nat) :
    beBytesToNat (xs ++ [b]) = 256 * beBytesToNat xs + b := by
  simp [beBytesToNat, List.foldl_append]

theorem mod_mul_256 (b n : Nat) (hb : 0 < b) :
    n % (256 * b) = 256 * (n / 256 % b) + n % 256 := by
  obtain ⟨q, r, hr, rfl⟩ : ∃ q r, r < 256 ∧ n = 256 * q + r :=
    ⟨n / 256, n % 256, Nat.mod_lt _ (by omega), (Nat.div_add_mod n 256).symm⟩
  obtain ⟨p, t, ht, rfl⟩ : ∃ p t, t < b ∧ q = b * p + t :=
    ⟨q / b, q % b, Nat.mod_lt _ hb, (Nat.div_add_mod q b).symm⟩
  have h1 : 256 * (b * p + t) + r = 256 * b * p + (256 * t + r) := by ring
  have h2 : (256 * (b * p + t) + r) / 256 = b * p + t := by
    rw [Nat.mul_add_div (by omega)]
    simp [Nat.div_eq_of_lt hr]
  have h3 : (256 * (b * p + t) + r) % 256 = r := by
    rw [Nat.mul_add_mod]
    exact Nat.mod_eq_of_lt hr
  rw [h2, h3, h1, Nat.mul_add_mod, Nat.mul_add_mod,
    Nat.mod_eq_of_lt (show 256 * t + r < 256 * b by omega), Nat.mod_eq_of_lt ht]

theorem beBytesToNat_natToBEBytes (k n : Nat) :
    beBytesToNat (natToBEBytes k n) = n % 256 ^ k := by
  induction k generalizing n with
  | zero => simp [natToBEBytes, beBytesToNat, Nat.mod_one]
  | succ k ih =>
    rw [natToBEBytes, beBytesToNat_append_one, ih, pow_succ,
      mul_comm (256 ^ k) 256, mod_mul_256 _ _ (pow_pos (by omega) k)]

/-- Claim C7: `ValueMessage::decode` rejects every input shorter than 18
bytes and `InboundMessage::decode` every input shorter than 50 bytes with
the payload-too-short error (`InvalidPayload`); for every input length,
including zero, neither decoder reads past the end of the buffer — each is a
total function whose result depends only on the first 18 (respectively 50)
bytes of the input. -/
theorem decode_bounds :
    (∀ data : List Nat, data.length < 18 →
      ValueMessage.decode data = .error .InvalidPayload) ∧
    (∀ data : List Nat, data.length < 50 →
      InboundMessage.decode data = .error .InvalidPayload) ∧
    (∀ data : List Nat, ValueMessage.decode data = ValueMessage.decode (data.take 18)) ∧
    (∀ data : List Nat, InboundMessage.decode data = InboundMessage.decode (data.take 50)) := by
  refine ⟨fun data h => ?_, fun data h => ?_, fun data => ?_, fun data => ?_⟩
  · simp [ValueMessage.decode, ValueMessage.PAYLOAD_SIZE, h]
  · simp [InboundMessage.decode, InboundMessage.PAYLOAD_SIZE, h]
  · by_cases h : data.length < 18
    · rw [List.take_of_length_le (by omega)]
    · simp only [ValueMessage.decode, ValueMessage.PAYLOAD_SIZE, List.length_take,
        List.take_take, List.drop_take]
      rw [if_neg h, if_neg (by omega)]
      norm_num
  · by_cases h : data.length < 50
    · rw [List.take_of_length_le (by omega)]
    · simp only [InboundMessage.decode, InboundMessage.PAYLOAD_SIZE, List.length_take,
        List.take_take, List.drop_take]
      rw [if_neg h, if_neg (by omega)]
      norm_num

/-- Witness for C7 at concrete inputs. -/
theorem decode_bounds_witness :
    ValueMessage.decode (List.replicate 17 3) = .error .InvalidPayload ∧
    InboundMessage.decode (List.replicate 49 3) = .error .InvalidPayload ∧
    ValueMessage.decode (List.replicate 25 3) =
      ValueMessage.decode ((List.replicate 25 3).take 18) ∧
    InboundMessage.decode (List.replicate 60 3) =
      InboundMessage.decode ((List.replicate 60 3).take 50) :=
  ⟨decode_bounds.1 (List.replicate 17 3) (by decide),
   decode_bounds.2.1 (List.replicate 49 3) (by decide),
   decode_bounds.2.2.1 (List.replicate 25 3),
   decode_bounds.2.2.2 (List.replicate 60 3)⟩

/-- Claim C8: for every destination chain identifier `d : u16` and every
value `v : u128`, decoding the compact encoding round-trips:
`ValueMessage::decode (ValueMessage::encode ⟨d, v⟩)` succeeds and returns
exactly `d` and `v`. -/
theorem valueMessage_roundtrip (d v : Nat) (hd : d < 2 ^ 16) (hv : v < 2 ^ 128) :
    ValueMessage.decode (ValueMessage.encode
      { destination_chain_id := d, value := v }) =
      .ok { destination_chain_id := d, value := v } := by
  have h2 : (natToBEBytes 2 d).length = 2 := natToBEBytes_length 2 d
  have h16 : (natToBEBytes 16 v).length = 16 := natToBEBytes_length 16 v
  have htake : (ValueMessage.encode { destination_chain_id := d, value := v }).take 2 =
      natToBEBytes 2 d := List.take_left' h2
  have hdrop : (ValueMessage.encode { destination_chain_id := d, value := v }).drop 2 =
      natToBEBytes 16 v := List.drop_left' h2
  have hlen : (ValueMessage.encode { destination_chain_id := d, value := v }).length = 18 := by
    simp [ValueMessage.encode, h2, h16]
  have hd' : d < 256 ^ 2 := by norm_num at hd ⊢; omega
  have hv' : v < 256 ^ 16 := by norm_num at hv ⊢; omega
  rw [ValueMessage.decode]
  simp only [ValueMessage.PAYLOAD_SIZE]
  rw [if_neg (by omega), htake, hdrop,
    List.take_of_length_le (by omega), beBytesToNat_natToBEBytes,
    beBytesToNat_natToBEBytes, Nat.mod_eq_of_lt hd', Nat.mod_eq_of_lt hv']

/-- Witness for C8 at concrete inputs. -/
theorem valueMessage_roundtrip_witness :
    ValueMessage.decode (ValueMessage.encode
      { destination_chain_id := 777, value := 123456789 }) =
      .ok { destination_chain_id := 777, value := 123456789 } :=
  valueMessage_roundtrip 777 123456789 (by norm_num) (by norm_num)

/-! ### Concrete fixtures used by witnesses and counterexamples -/

/-- A concrete `Config`: local chain id 1 (Solana), outbound nonce 10. -/
def cfgW : Config :=
  { owner := 100, wormhole_program := 0, wormhole_bridge := 0
    wormhole_fee_collector := 0, wormhole_emitter := 0, wormhole_sequence := 0
    chain_id := 1, nonce := 10 }

/-- A registered default-payload emitter for chain 7. -/
def feW : ForeignEmitter :=
  { chain_id := 7, address := List.replicate 32 1, is_default_payload := true }

/-- A state with the chain-7 emitter registered and no received messages. -/
def stW : BridgeState :=
  { config := cfgW, current_value := 0, emitters := [(7, feW)], received := [] }

/-- A 113-byte Layout B posted-VAA buffer: sequence 42 (LE at 49), emitter
chain 7 (LE at 57), emitter address = `feW.address` (at 59), payload length
18 (LE at 91), payload = compact message with destination chain 1 and
value 5. -/
def bufW : List Nat :=
  List.replicate 49 0 ++ [42, 0, 0, 0, 0, 0, 0, 0] ++ [7, 0] ++ List.replicate 32 1
    ++ [18, 0, 0, 0] ++ ([0, 1] ++ List.replicate 15 0 ++ [5])

/-- The state after successfully receiving `bufW` in `stW`. -/
def st1W : BridgeState :=
  { config := cfgW, current_value := 5
    emitters := [(7, feW)]
    received := [((7, 42), { sequence := 42, emitter_chain := 7, value := 5, batch_id := 0 })] }

/-- The 59-byte Layout A (legacy) buffer of claim C2: origin network 7
big-endian at offset 16, sender address at 18, sequence 42 big-endian at
offset 50, empty trailing payload. -/
def bufA : List Nat :=
  List.replicate 16 0 ++ [0, 7] ++ List.replicate 32 1 ++ [0, 0, 0, 0, 0, 0, 0, 42] ++ [0]

/-- A registered extended-payload (non-default) emitter for chain 9. -/
def feX : ForeignEmitter :=
  { chain_id := 9, address := List.replicate 32 2, is_default_payload := false }

/-- A state with the chain-9 extended-payload emitter registered. -/
def stX : BridgeState :=
  { config := cfgW, current_value := 0, emitters := [(9, feX)], received := [] }

/-- A Layout B buffer from the chain-9 emitter whose payload is 18 bytes —
long enough for the compact decoder but short of the extended minimum. -/
def bufX : List Nat :=
  List.replicate 49 0 ++ [42, 0, 0, 0, 0, 0, 0, 0] ++ [9, 0] ++ List.replicate 32 2
    ++ [18, 0, 0, 0] ++ ([0, 1] ++ List.replicate 15 0 ++ [5])

/-! ### Inversion of a successful `receive_value` -/

theorem receive_value_ok_inv (st : BridgeState) (hash : List Nat) (c s : Nat)
    (vaa : List Nat) (st1 : BridgeState)
    (hok : receive_value st hash c s vaa = (none, st1)) :
    ∃ fe value, st.emitters.lookup c = some fe ∧
      st.received.lookup (c, s) = none ∧
      95 ≤ vaa.length ∧
      parsedEmitterChain vaa = c ∧
      parsedSequence vaa = s ∧
      st1 = { st with
        current_value := value
        received := ((c, s),
          { sequence := s, emitter_chain := c, value := value
            batch_id := 0 }) :: st.received } := by
  unfold receive_value at hok
  cases hlk : st.emitters.lookup c with
  | none =>
    rw [hlk] at hok
    exact Option.noConfusion (congrArg Prod.fst hok)
  | some fe =>
    rw [hlk] at hok
    dsimp only at hok
    split_ifs at hok with hnr hlen hc hs haddr hpl
    all_goals try exact Option.noConfusion (congrArg Prod.fst hok)
    split at hok
    · exact Option.noConfusion (congrArg Prod.fst hok)
    · rename_i value heq
      injection hok with hfst hsnd
      refine ⟨fe, value, rfl, ?_, hlen, hc, hs, hsnd.symm⟩
      cases hlc : st.received.lookup (c, s) with
      | none => rfl
      | some r => rw [hlc] at hnr; simp at hnr

/-! ### Claim theorems on the pipelines -/

/-- Claim C1: for every pair of `receive_value` invocations carrying the
same (emitter_chain, sequence) key, at most one succeeds: a successful
invocation creates the `ReceivedMessage` record for that key, any following
invocation on the same key fails with the duplicate-claim error (the `init`
constraint's account-already-exists failure), and after the failed second
attempt the state — `CurrentValue.value` in particular — is exactly the
state left by the first invocation, whose `current_value` is the applied
value recorded for the key. -/
theorem receive_value_replay_protection (st : BridgeState) (hash : List Nat)
    (c s : Nat) (vaa : List Nat) (st1 : BridgeState)
    (h : receive_value st hash c s vaa = (none, st1)) :
    ∃ rec : ReceivedMessage,
      st1.received.lookup (c, s) = some rec ∧
      rec.emitter_chain = c ∧ rec.sequence = s ∧
      st1.current_value = rec.value ∧
      ∀ hash2 vaa2, receive_value st1 hash2 c s vaa2 = (some .accountExists, st1) := by
  obtain ⟨fe, value, hfe, hnr, hlen, hc, hs, rfl⟩ :=
    receive_value_ok_inv st hash c s vaa st1 h
  refine ⟨{ sequence := s, emitter_chain := c, value := value, batch_id := 0 },
    ?_, rfl, rfl, rfl, ?_⟩
  · simp [List.lookup]
  · intro hash2 vaa2
    simp [receive_value, hfe, List.lookup]

/-- Witness for C1: in state `stW`, receiving `bufW` under key (7, 42)
succeeds and yields `st1W`; replaying any buffer under (7, 42) then fails
with the duplicate-claim error, leaving `st1W` (hence its
`current_value = 5`) intact. -/
theorem receive_value_replay_protection_witness :
    ∃ rec : ReceivedMessage,
      st1W.received.lookup (7, 42) = some rec ∧
      rec.emitter_chain = 7 ∧ rec.sequence = 42 ∧
      st1W.current_value = rec.value ∧
      ∀ hash2 vaa2, receive_value st1W hash2 7 42 vaa2 = (some .accountExists, st1W) :=
  receive_value_replay_protection stW [] 7 42 bufW st1W (by decide)

/-- Counterexample for C2: the 59-byte Layout A (legacy) buffer `bufA` —
origin network 7 big-endian at offset 16, sender address at 18, sequence 42
big-endian at 50, empty trailing payload — does not parse successfully:
`receive_value` rejects it with `InvalidPayload` even with the matching
emitter registered, because the parser requires 95 bytes and Layout B
offsets. -/
theorem receive_value_rejects_layoutA :
    bufA.length = 59 ∧
    receive_value stW [] 7 42 bufA = (some (.program .InvalidPayload), stW) := by
  decide

/-- Claim C2 (amended): the envelope parser in `receive_value` accepts only
the Layout B wire format: every buffer shorter than 95 bytes — in
particular a 59-byte Layout A (legacy) buffer — is rejected with the
`InvalidPayload` error; only buffers of at least 95 bytes, with the
little-endian Layout B field offsets, proceed. -/
theorem receive_value_layoutB_only (st : BridgeState) (hash : List Nat)
    (c s : Nat) (vaa : List Nat) (fe : ForeignEmitter)
    (hfe : st.emitters.lookup c = some fe)
    (hnr : st.received.lookup (c, s) = none)
    (hlen : vaa.length < 95) :
    receive_value st hash c s vaa = (some (.program .InvalidPayload), st) := by
  unfold receive_value
  rw [hfe]
  dsimp only
  rw [if_neg (by simp [hnr]), if_neg (by omega)]

/-- Witness for the amended C2 at the concrete Layout A buffer. -/
theorem receive_value_layoutB_only_witness :
    receive_value stW [] 7 42 bufA = (some (.program .InvalidPayload), stW) :=
  receive_value_layoutB_only stW [] 7 42 bufA feW (by decide) (by decide) (by decide)

/-- Counterexample for C3: calling `register_emitter` a second time for
chain 7 — already registered in `stW` — with the owner signing, a non-local
chain id and a non-zero address does not succeed: it fails with the
account-already-exists error of the `init` constraint and leaves the state
unchanged, so there is no overwrite. -/
theorem register_emitter_no_overwrite :
    (stW.emitters.lookup 7).isSome = true ∧
    (7 : Nat) ≠ SOLANA_CHAIN_ID ∧
    List.replicate 32 2 ≠ List.replicate 32 0 ∧
    register_emitter stW 100 7 (List.replicate 32 2) false = (some .accountExists, stW) := by
  decide

/-- Claim C3 (amended): calling `register_emitter` a second time for a
chain_id that already has a registered `ForeignEmitter` always fails with
the account-already-in-use error of the `init` constraint (there is indeed
no distinct program-level "already registered" error): the existing entry
is not overwritten. -/
theorem register_emitter_existing_fails (st : BridgeState) (signer c : Nat)
    (addr : List Nat) (tag : Bool) (fe : ForeignEmitter)
    (hs : signer = st.config.owner)
    (hfe : st.emitters.lookup c = some fe) :
    register_emitter st signer c addr tag = (some .accountExists, st) := by
  unfold register_emitter
  rw [if_neg (by simp [hs]), if_pos (by simp [hfe])]

/-- Witness for the amended C3 at a concrete registered chain. -/
theorem register_emitter_existing_fails_witness :
    register_emitter stW 100 7 (List.replicate 32 3) true = (some .accountExists, stW) :=
  register_emitter_existing_fails stW 100 7 (List.replicate 32 3) true feW
    (by decide) (by decide)

/-- Claim C4: payload-format dispatch in `receive_value` is driven solely
by the registered emitter's `is_default_payload` tag, never by the
payload's length: for every emitter registered with the extended
(non-default) format and every payload of length at least 18 but less than
50 bytes, `receive_value` fails with the `InvalidPayload` error even though
the payload meets the compact minimum length. -/
theorem receive_value_tag_dispatch (st : BridgeState) (hash : List Nat)
    (c s : Nat) (vaa : List Nat) (fe : ForeignEmitter)
    (hfe : st.emitters.lookup c = some fe)
    (htag : fe.is_default_payload = false)
    (hnr : st.received.lookup (c, s) = none)
    (hlen : 95 ≤ vaa.length)
    (hc : parsedEmitterChain vaa = c)
    (hs : parsedSequence vaa = s)
    (haddr : fe.verify (parsedEmitterAddress vaa) = true)
    (hpl : 95 + parsedPayloadLen vaa ≤ vaa.length)
    (_hmin : 18 ≤ parsedPayloadLen vaa)
    (hmax : parsedPayloadLen vaa < 50) :
    receive_value st hash c s vaa = (some (.program .InvalidPayload), st) := by
  have hplen : (parsedPayload vaa).length = parsedPayloadLen vaa := by
    simp only [parsedPayload, List.length_take, List.length_drop]
    omega
  have hdec : decodeByFormat fe st.config.chain_id (parsedPayload vaa) =
      .error .InvalidPayload := by
    have hshort : (parsedPayload vaa).length < InboundMessage.PAYLOAD_SIZE := by
      rw [hplen]; exact hmax
    unfold decodeByFormat
    rw [if_neg (by simp [htag]), if_pos hshort]
  unfold receive_value
  rw [hfe]
  dsimp only
  rw [if_neg (by simp [hnr]), if_pos hlen, if_pos hc, if_pos hs, if_pos haddr,
    if_pos hpl, hdec]

/-- Witness for C4: the chain-9 emitter is registered with the extended
format; `bufX` carries an 18-byte payload, and `receive_value` rejects it
with `InvalidPayload`. -/
theorem receive_value_tag_dispatch_witness :
    receive_value stX [] 9 42 bufX = (some (.program .InvalidPayload), stX) :=
  receive_value_tag_dispatch stX [] 9 42 bufX feX (by decide) (by decide) (by decide)
    (by decide) (by decide) (by decide) (by decide) (by decide) (by decide) (by decide)

/-- Claim C5: `receive_value` fails with the mismatch error
(`InvalidPayload`) whenever the caller-asserted emitter chain differs from
the origin network parsed from the buffer or the asserted sequence differs
from the parsed sequence; and every successful invocation implies both
asserted values equal the parsed ones. -/
theorem receive_value_crosscheck :
    (∀ st : BridgeState, ∀ hash : List Nat, ∀ c s : Nat, ∀ vaa : List Nat,
      ∀ fe : ForeignEmitter,
      st.emitters.lookup c = some fe →
      st.received.lookup (c, s) = none →
      95 ≤ vaa.length →
      (parsedEmitterChain vaa ≠ c ∨ parsedSequence vaa ≠ s) →
      receive_value st hash c s vaa = (some (.program .InvalidPayload), st)) ∧
    (∀ st : BridgeState, ∀ hash : List Nat, ∀ c s : Nat, ∀ vaa : List Nat,
      ∀ st1 : BridgeState,
      receive_value st hash c s vaa = (none, st1) →
      parsedEmitterChain vaa = c ∧ parsedSequence vaa = s) := by
  constructor
  · intro st hash c s vaa fe hfe hnr hlen hmis
    unfold receive_value
    rw [hfe]
    dsimp only
    rw [if_neg (by simp [hnr]), if_pos hlen]
    rcases hmis with hmis | hmis
    · rw [if_neg hmis]
    · by_cases hc : parsedEmitterChain vaa = c
      · rw [if_pos hc, if_neg hmis]
      · rw [if_neg hc]
  · intro st hash c s vaa st1 h
    obtain ⟨fe, value, hfe, hnr, hlen, hc, hs, _⟩ :=
      receive_value_ok_inv st hash c s vaa st1 h
    exact ⟨hc, hs⟩

/-- Witness for C5: asserting sequence 43 against `bufW` (whose parsed
sequence is 42) fails with `InvalidPayload`. -/
theorem receive_value_crosscheck_witness :
    receive_value stW [] 7 43 bufW = (some (.program .InvalidPayload), stW) :=
  receive_value_crosscheck.1 stW [] 7 43 bufW feW (by decide) (by decide) (by decide)
    (Or.inr (by decide))

/-- Claim C6: a successful `send_value` increments `Config.nonce` by
exactly 1 (as a u32) and has performed the emission; every failed
`send_value` — self-destination, insufficient fee, or failed emission —
leaves the `Config`, in particular its nonce, unchanged; and whenever no
successful emission happened the nonce is unchanged, so the increment
happens only after successful emission. -/
theorem send_value_nonce (cfg : Config) (d v : Nat) (b : List Nat)
    (lam : Nat) (em : Bool) :
    ((send_value cfg d v b lam em).result = none →
      (send_value cfg d v b lam em).config.nonce = (cfg.nonce + 1) % 2 ^ 32 ∧
      (send_value cfg d v b lam em).emitted.isSome = true) ∧
    (∀ e, (send_value cfg d v b lam em).result = some e →
      (send_value cfg d v b lam em).config = cfg) ∧
    ((send_value cfg d v b lam em).emitted = none →
      (send_value cfg d v b lam em).config.nonce = cfg.nonce) := by
  simp only [send_value]
  split_ifs <;> simp

/-- Witness for C6: a successful send increments the nonce of `cfgW` from
10 to 11; a self-destination send and an emission failure leave it at 10. -/
theorem send_value_nonce_witness :
    ((send_value cfgW 2 77 [] 0 true).config.nonce = (cfgW.nonce + 1) % 2 ^ 32 ∧
      (send_value cfgW 2 77 [] 0 true).emitted.isSome = true) ∧
    (send_value cfgW 1 77 [] 0 true).config = cfgW ∧
    (send_value cfgW 2 77 [] 0 false).config.nonce = cfgW.nonce :=
  ⟨(send_value_nonce cfgW 2 77 [] 0 true).1 (by decide),
   (send_value_nonce cfgW 1 77 [] 0 true).2.1
     (.program .InvalidDestinationChainId) (by decide),
   (send_value_nonce cfgW 2 77 [] 0 false).2.2 (by decide)⟩

/-- Claim C9: `receive_value` is insensitive to its `vaa_hash` argument:
two calls differing only in the hash produce the same outcome and the same
final state — the hash is accepted but never read. -/
theorem receive_value_ignores_hash (st : BridgeState) (h1 h2 : List Nat)
    (c s : Nat) (vaa : List Nat) :
    receive_value st h1 c s vaa = receive_value st h2 c s vaa := rfl

/-- Claim C10: in `send_value`, if the wormhole bridge data account holds
fewer than 24 bytes the fee is silently treated as zero — no fee error, no
fee transfer, and (for a non-self destination) the pipeline proceeds
directly to encoding and emission; a fee transfer is attempted (or an
insufficient-fee failure raised) only when at least 24 bytes are present
and the LE u64 at offset 16 is strictly positive. -/
theorem send_value_fee_parsing (cfg : Config) (d v : Nat) (b : List Nat)
    (lam : Nat) (em : Bool) :
    (b.length < 24 →
      (send_value cfg d v b lam em).fee_transfer = none ∧
      (send_value cfg d v b lam em).result ≠ some (.program .InsufficientFee)) ∧
    (b.length < 24 → d ≠ SOLANA_CHAIN_ID → em = true →
      send_value cfg d v b lam em =
        { result := none
          config := { cfg with nonce := (cfg.nonce + 1) % 2 ^ 32 }
          fee_transfer := none
          emitted := some (cfg.nonce, ValueMessage.encode
            { destination_chain_id := d, value := v }) }) ∧
    ((send_value cfg d v b lam em).fee_transfer.isSome = true ∨
      (send_value cfg d v b lam em).result = some (.program .InsufficientFee) →
      24 ≤ b.length ∧ 0 < leBytesToNat ((b.drop 16).take 8)) := by
  simp only [send_value]
  split_ifs <;> simp_all

/-- Witness for C10: with an empty bridge data account the send performs no
transfer and proceeds to emission; with a 24-byte account carrying fee 5 and
a sufficient balance, a transfer is recorded, and the theorem recovers the
length and positivity facts. -/
theorem send_value_fee_parsing_witness :
    ((send_value cfgW 2 77 [] 0 true).fee_transfer = none ∧
      (send_value cfgW 2 77 [] 0 true).result ≠ some (.program .InsufficientFee)) ∧
    (send_value cfgW 2 77 [] 0 true =
      { result := none
        config := { cfgW with nonce := (cfgW.nonce + 1) % 2 ^ 32 }
        fee_transfer := none
        emitted := some (cfgW.nonce, ValueMessage.encode
          { destination_chain_id := 2, value := 77 }) }) ∧
    (24 ≤ (List.replicate 16 0 ++ [5, 0, 0, 0, 0, 0, 0, 0] : List Nat).length ∧
      0 < leBytesToNat (((List.replicate 16 0 ++ [5, 0, 0, 0, 0, 0, 0, 0] : List Nat)).drop 16 |>.take 8)) :=
  ⟨(send_value_fee_parsing cfgW 2 77 [] 0 true).1 (by decide),
   (send_value_fee_parsing cfgW 2 77 [] 0 true).2.1 (by decide) (by decide) rfl,
   (send_value_fee_parsing cfgW 2 77
      (List.replicate 16 0 ++ [5, 0, 0, 0, 0, 0, 0, 0]) 10 true).2.2
     (Or.inl (by decide))⟩

end MessageBridge
